import Mathlib

/-!
Shallow embedding of the Custom-Dropdown widget (`src/script.js`) and proofs
about its operations.  DOM elements are identified by indices: a page is a
list of dropdown instances (in registry order), an option element is its
index in the instance's option list.  Attributes and CSS classes that the
code mutates are explicit fields; event listeners are boolean flags
(attached / removed); `dispatchEvent` of the `dropdown:select` custom event
is modelled by returning the list of emitted events; a thrown `TypeError`
is modelled by a `crashed` flag together with the state at the moment of
the throw (the mutations already performed persist, the rest of the method
is skipped).
-/

namespace CustomDropdown

/-- One option element: its `data-value` payload and its `innerHTML`. -/
structure OptionEntry where
  value : String
  label : String
deriving Repr, DecidableEq

/-- The `dropdown:select` custom event: `detail.value`, `detail.option`
(the option element, identified by its index) and `detail.dropdown`
(the container element, identified by the instance id). -/
structure SelectEvent where
  value : Option String
  optionIndex : Nat
  source : String
deriving Repr, DecidableEq

/-- State of one `Dropdown` instance: the constructor fields plus the
DOM attributes/classes the methods read and write, plus one flag per
event listener registered by `init()`. -/
structure Dropdown where
  id : String
  options : List OptionEntry
  isOpen : Bool
  selectedValue : Option String
  /-- `this.selectedOption`: the selected option element, by index; `none` models `null`. -/
  selectedIndex : Option Nat
  /-- `this.focusedIndex`: a JS number, `-1` is the sentinel for "none". -/
  focusedIndex : Int
  /-- `innerHTML` of the `[data-dropdown-value]` element. -/
  valueDisplay : String
  isPlaceholderClass : Bool
  placeholder : String
  /-- The trigger's `aria-expanded` attribute, as a boolean. -/
  ariaExpanded : Bool
  /-- Each option's `aria-selected` attribute (`true` iff set to `"true"`). -/
  ariaSelected : List Bool
  /-- Each option's `is-selected` class. -/
  isSelectedClass : List Bool
  /-- Each option's `is-focused` class. -/
  isFocusedClass : List Bool
  /-- The container's `is-open` class (what the mutual-exclusion query selects on). -/
  classOpen : Bool
  /-- `trigger.addEventListener('click', this.toggle)` is attached. -/
  triggerListener : Bool
  /-- `dropdown.addEventListener('keydown', this.handleKeyboard)` is attached. -/
  keydownListener : Bool
  /-- `document.addEventListener('click', this.handleClickOutside)` is attached. -/
  docClickListener : Bool
  /-- The per-option anonymous click handlers added in `init()` are attached. -/
  optionListeners : Bool
deriving Repr, DecidableEq

/-- Constructor plus `init()`: fresh instance built from its markup
(closed, nothing selected, placeholder shown, all listeners attached,
`aria-expanded="false"` as in the markup). -/
def mkDropdown (id : String) (opts : List OptionEntry) (placeholder : String) : Dropdown where
  id := id
  options := opts
  isOpen := false
  selectedValue := none
  selectedIndex := none
  focusedIndex := -1
  valueDisplay := placeholder
  isPlaceholderClass := true
  placeholder := placeholder
  ariaExpanded := false
  ariaSelected := opts.map fun _ => false
  isSelectedClass := opts.map fun _ => false
  isFocusedClass := opts.map fun _ => false
  classOpen := false
  triggerListener := true
  keydownListener := true
  docClickListener := true
  optionListeners := true

/-- Lines 97-103 of `open()`: the state changes applied to the opening
instance itself, after the close-others broadcast.  `focusedIndex` becomes
`options.indexOf(selectedOption)` when a selection exists (which is that
option's index), else `-1`. -/
def Dropdown.openSelf (d : Dropdown) : Dropdown :=
  { d with
    isOpen := true
    classOpen := true
    ariaExpanded := true
    focusedIndex :=
      match d.selectedIndex with
      | some i => (i : Int)
      | none => -1 }

/-- `close()`: early return when already closed; otherwise clear the open
flag, the `is-open` class, `aria-expanded`, every option's `is-focused`
class and the focused index. -/
def Dropdown.close (d : Dropdown) : Dropdown :=
  if d.isOpen then
    { d with
      isOpen := false
      classOpen := false
      ariaExpanded := false
      isFocusedClass := d.options.map fun _ => false
      focusedIndex := -1 }
  else d

/-- `updateFocusedOption()`: clear every `is-focused` class, then set it on
the focused option when the index is in range (the scroll is presentation
only). -/
def Dropdown.updateFocusedOption (d : Dropdown) : Dropdown :=
  let cleared := d.options.map fun _ => false
  if 0 ≤ d.focusedIndex ∧ d.focusedIndex < (d.options.length : Int) then
    { d with isFocusedClass := cleared.set d.focusedIndex.toNat true }
  else
    { d with isFocusedClass := cleared }

/-- `focusNextOption()`: `Math.min(focusedIndex + 1, options.length - 1)`. -/
def Dropdown.focusNextOption (d : Dropdown) : Dropdown :=
  ({ d with focusedIndex := min (d.focusedIndex + 1) ((d.options.length : Int) - 1) }).updateFocusedOption

/-- `focusPreviousOption()`: `Math.max(focusedIndex - 1, 0)`. -/
def Dropdown.focusPreviousOption (d : Dropdown) : Dropdown :=
  ({ d with focusedIndex := max (d.focusedIndex - 1) 0 }).updateFocusedOption

/-- `focusFirstOption()`. -/
def Dropdown.focusFirstOption (d : Dropdown) : Dropdown :=
  ({ d with focusedIndex := 0 }).updateFocusedOption

/-- `focusLastOption()`. -/
def Dropdown.focusLastOption (d : Dropdown) : Dropdown :=
  ({ d with focusedIndex := (d.options.length : Int) - 1 }).updateFocusedOption

/-- Result of running `selectOption`: the instance state when the method
finishes (or when the exception is thrown), the emitted `dropdown:select`
events, and whether a `TypeError` was thrown. -/
structure SelectResult where
  state : Dropdown
  events : List SelectEvent
  crashed : Bool
deriving Repr, DecidableEq

/-- `selectOption(option, index)` where `option = this.options[index]`
(what both call sites pass).  Faithful to the source order: first unmark
the previous selection; then `this.selectedOption = option` — when `index`
is out of range `option` is `undefined`, so the following read of
`option.dataset.value` throws a `TypeError`, leaving the remaining
statements unexecuted; otherwise record the selection, update the option's
class and `aria-selected`, update the trigger display, `close()`, and
dispatch the event (whose `detail.value` reads `this.selectedValue` after
the mutations). -/
def Dropdown.selectOption (d : Dropdown) (index : Nat) : SelectResult :=
  let d1 :=
    match d.selectedIndex with
    | some prev =>
        { d with
          isSelectedClass := d.isSelectedClass.set prev false
          ariaSelected := d.ariaSelected.set prev false }
    | none => d
  match d.options.get? index with
  | none =>
      { state := { d1 with selectedIndex := none }, events := [], crashed := true }
  | some opt =>
      let d2 :=
        { d1 with
          selectedIndex := some index
          selectedValue := some opt.value
          isSelectedClass := d1.isSelectedClass.set index true
          ariaSelected := d1.ariaSelected.set index true
          valueDisplay := opt.label
          isPlaceholderClass := false }
      let d3 := d2.close
      { state := d3
        events := [{ value := d3.selectedValue, optionIndex := index, source := d3.id }]
        crashed := false }

/-- `destroy()`: remove the trigger click, container keydown and document
click listeners (the per-option click listeners are not removed), force
`isOpen` to false and drop the `is-open` class.  `aria-expanded` and
`focusedIndex` are left as they are. -/
def Dropdown.destroy (d : Dropdown) : Dropdown :=
  { d with
    triggerListener := false
    keydownListener := false
    docClickListener := false
    isOpen := false
    classOpen := false }

/-- The page: the registry-built instances, in document order. -/
abbrev Page := List Dropdown

/-- Number of instances with `isOpen = true`. -/
def countOpen (p : Page) : Nat := p.countP fun d => d.isOpen

/-- Look an instance up by its position. -/
def getInst (p : Page) (i : Nat) : Option Dropdown := p.get? i

/-- Replace instance `i` by `f` applied to it (no-op when out of range). -/
def setInst (f : Dropdown → Dropdown) : Nat → Page → Page
  | _, [] => []
  | 0, d :: rest => f d :: rest
  | n + 1, d :: rest => d :: setInst f n rest

/-- The broadcast in `open()` (lines 90-95), with `j` the position of the
first listed instance: `document.querySelectorAll('.dropdown.is-open')`
selects the elements whose `is-open` class is set; every one other than
the opening instance has its `close()` called through
`_dropdownInstance`. -/
def closeOthersFrom (self : Nat) : Nat → Page → Page
  | _, [] => []
  | j, d :: rest =>
      (if d.classOpen = true ∧ j ≠ self then d.close else d) :: closeOthersFrom self (j + 1) rest

/-- The close-others broadcast over the whole page. -/
def closeOthers (p : Page) (self : Nat) : Page := closeOthersFrom self 0 p

/-- `open()` on instance `i`: early return when already open, otherwise
run the broadcast, then apply the instance's own open-state side effects. -/
def openInst (p : Page) (i : Nat) : Page :=
  match getInst p i with
  | none => p
  | some d => if d.isOpen then p else setInst Dropdown.openSelf i (closeOthers p i)

/-- `close()` on instance `i` (page view). -/
def closeInst (p : Page) (i : Nat) : Page := setInst Dropdown.close i p

/-- `toggle()` on instance `i` (it calls `e.stopPropagation()`, so the
document click listeners never see the triggering event). -/
def toggleInst (p : Page) (i : Nat) : Page :=
  match getInst p i with
  | none => p
  | some d => if d.isOpen then closeInst p i else openInst p i

/-- Where a click lands: on an instance's trigger, on one of its option
elements, elsewhere inside its container, or outside every instance. -/
inductive ClickTarget where
  | trigger (i : Nat)
  | optionEl (i : Nat) (j : Nat)
  | inside (i : Nat)
  | outside
deriving Repr, DecidableEq

/-- `this.dropdown.contains(e.target)` for instance `k`. -/
def containsTarget (k : Nat) : ClickTarget → Bool
  | .trigger i => i == k
  | .optionEl i _ => i == k
  | .inside i => i == k
  | .outside => false

/-- The document-level click phase: every instance whose
`handleClickOutside` listener is still attached closes itself when it is
open and the target is outside its element. -/
def documentClickFrom (t : ClickTarget) : Nat → Page → Page
  | _, [] => []
  | j, d :: rest =>
      (if d.docClickListener = true ∧ d.isOpen = true ∧ containsTarget j t = false
       then d.close else d) :: documentClickFrom t (j + 1) rest

/-- Document click phase over the whole page. -/
def documentClick (p : Page) (t : ClickTarget) : Page := documentClickFrom t 0 p

/-- Result of dispatching one event or API call on the page. -/
structure StepResult where
  page : Page
  events : List SelectEvent
  crashed : Bool
deriving Repr, DecidableEq

/-- Dispatch of a click event.  A trigger click runs `toggle` when that
listener is attached (it stops propagation, so the document phase is
skipped); an option click runs the option's anonymous handler when there
is such an option element (it stops propagation likewise); otherwise the
event bubbles to the document listeners. -/
def click (p : Page) (t : ClickTarget) : StepResult :=
  match t with
  | .trigger i =>
      match getInst p i with
      | none => ⟨p, [], false⟩
      | some d =>
          if d.triggerListener then ⟨toggleInst p i, [], false⟩
          else ⟨documentClick p t, [], false⟩
  | .optionEl i j =>
      match getInst p i with
      | none => ⟨p, [], false⟩
      | some d =>
          if j < d.options.length then
            if d.optionListeners then
              let r := d.selectOption j
              ⟨setInst (fun _ => r.state) i p, r.events, r.crashed⟩
            else ⟨documentClick p t, [], false⟩
          else ⟨p, [], false⟩
  | .inside _ => ⟨documentClick p t, [], false⟩
  | .outside => ⟨documentClick p t, [], false⟩

/-- The keyboard keys `handleKeyboard` distinguishes. -/
inductive Key where
  | enter | space | escape | arrowDown | arrowUp | home | endKey | other
deriving Repr, DecidableEq

/-- Dispatch of a keydown event targeting instance `i` (the listener sits
on the container).  Transcribed from `handleKeyboard`, including the early
return `if (!this.isOpen && e.key !== 'Enter' && e.key !== ' ') return`
and the (therefore unreachable) `if (!this.isOpen) this.open()` branches
under ArrowDown/ArrowUp. -/
def keydown (p : Page) (i : Nat) (k : Key) : StepResult :=
  match getInst p i with
  | none => ⟨p, [], false⟩
  | some d =>
      if d.keydownListener = false then ⟨p, [], false⟩
      else if d.isOpen = false ∧ k ≠ Key.enter ∧ k ≠ Key.space then ⟨p, [], false⟩
      else
        match k with
        | .enter | .space =>
            if d.isOpen = false then ⟨openInst p i, [], false⟩
            else if 0 ≤ d.focusedIndex then
              let r := d.selectOption d.focusedIndex.toNat
              ⟨setInst (fun _ => r.state) i p, r.events, r.crashed⟩
            else ⟨p, [], false⟩
        | .escape => ⟨closeInst p i, [], false⟩
        | .arrowDown =>
            if d.isOpen = false then ⟨openInst p i, [], false⟩
            else ⟨setInst Dropdown.focusNextOption i p, [], false⟩
        | .arrowUp =>
            if d.isOpen = false then ⟨openInst p i, [], false⟩
            else ⟨setInst Dropdown.focusPreviousOption i p, [], false⟩
        | .home =>
            if d.isOpen then ⟨setInst Dropdown.focusFirstOption i p, [], false⟩
            else ⟨p, [], false⟩
        | .endKey =>
            if d.isOpen then ⟨setInst Dropdown.focusLastOption i p, [], false⟩
            else ⟨p, [], false⟩
        | .other => ⟨p, [], false⟩

/-- The observable operations on a page: user events (clicks anywhere,
keydowns) and the public methods external code may call. -/
inductive Action where
  | click (t : ClickTarget)
  | keydown (i : Nat) (k : Key)
  | openOp (i : Nat)
  | closeOp (i : Nat)
  | selectOp (i : Nat) (j : Nat)
  | destroyOp (i : Nat)
deriving Repr, DecidableEq

/-- One dispatch step. -/
def step (p : Page) : Action → StepResult
  | .click t => click p t
  | .keydown i k => keydown p i k
  | .openOp i => ⟨openInst p i, [], false⟩
  | .closeOp i => ⟨closeInst p i, [], false⟩
  | .selectOp i j =>
      match getInst p i with
      | none => ⟨p, [], false⟩
      | some d =>
          let r := d.selectOption j
          ⟨setInst (fun _ => r.state) i p, r.events, r.crashed⟩
  | .destroyOp i => ⟨setInst Dropdown.destroy i p, [], false⟩

/-- Run a sequence of dispatches. -/
def run (p : Page) : List Action → Page
  | [] => p
  | a :: rest => run (step p a).page rest

/-- Markup for one instance, as `initDropdowns` finds it. -/
structure DropdownSpec where
  id : String
  options : List OptionEntry
  placeholder : String
deriving Repr, DecidableEq

/-- `initDropdowns()`: one fresh instance per matching element. -/
def initPage (specs : List DropdownSpec) : Page :=
  specs.map fun s => mkDropdown s.id s.options s.placeholder

/-- Structural well-formedness of one live-or-destroyed instance, kept
invariant by every dispatch: the `is-open` class tracks `isOpen`, and a
closed instance whose keydown listener is still attached has the sentinel
focused index. -/
def GoodD (d : Dropdown) : Prop :=
  d.classOpen = d.isOpen ∧ (d.keydownListener = true → d.isOpen = false → d.focusedIndex = -1)

/-- Page invariant: every instance well-formed, at most one open. -/
def Wf (p : Page) : Prop := (∀ d ∈ p, GoodD d) ∧ countOpen p ≤ 1

/-- What `destroy()` leaves behind on a registry-built instance. -/
def Destroyed (d : Dropdown) : Prop :=
  d.triggerListener = false ∧ d.keydownListener = false ∧ d.docClickListener = false ∧
  d.optionListeners = true ∧ d.isOpen = false ∧ d.classOpen = false

/-- Whether an action can reach `selectOption` on instance `i`. -/
def SelectsOn (a : Action) (i : Nat) : Bool :=
  match a with
  | .click (.optionEl j _) => j == i
  | .keydown j k => j == i && (k == Key.enter || k == Key.space)
  | .selectOp j _ => j == i
  | _ => false

/-- The four keyboard navigation requests available while open. -/
inductive NavKey where
  | down | up | first | last
deriving Repr, DecidableEq

/-- Apply one navigation request (the bodies invoked by `handleKeyboard`
for ArrowDown / ArrowUp / Home / End while open). -/
def applyNav (d : Dropdown) : NavKey → Dropdown
  | .down => d.focusNextOption
  | .up => d.focusPreviousOption
  | .first => d.focusFirstOption
  | .last => d.focusLastOption

/-- Apply a sequence of navigation requests. -/
def applyNavs (d : Dropdown) (ks : List NavKey) : Dropdown := ks.foldl applyNav d

/-- The accessibility-attribute synchronisation contract for one instance:
`aria-expanded` mirrors `isOpen` and each option's `aria-selected` mirrors
whether it is the selected option. -/
def AriaSync (d : Dropdown) : Prop :=
  d.ariaExpanded = d.isOpen ∧
  d.ariaSelected.length = d.options.length ∧
  ∀ j, j < d.options.length → d.ariaSelected.get? j = some (decide (d.selectedIndex = some j))

/-- Just the `aria-selected` half of the contract. -/
def AriaSelSync (d : Dropdown) : Prop :=
  d.ariaSelected.length = d.options.length ∧
  ∀ j, j < d.options.length → d.ariaSelected.get? j = some (decide (d.selectedIndex = some j))

/-! ### Basic facts about the instance-level operations -/

theorem close_isOpen (d : Dropdown) : d.close.isOpen = false := by
  unfold Dropdown.close; split <;> simp_all

theorem close_selectedIndex (d : Dropdown) : d.close.selectedIndex = d.selectedIndex := by
  unfold Dropdown.close; split <;> rfl

theorem close_selectedValue (d : Dropdown) : d.close.selectedValue = d.selectedValue := by
  unfold Dropdown.close; split <;> rfl

theorem close_classOpen (d : Dropdown) (h : d.classOpen = d.isOpen) :
    d.close.classOpen = false := by
  unfold Dropdown.close; split <;> simp_all

theorem GoodD_close {d : Dropdown} (h : GoodD d) : GoodD d.close := by
  unfold Dropdown.close
  rcases h with ⟨h1, h2⟩
  split <;> constructor <;> simp_all

theorem GoodD_openSelf (d : Dropdown) : GoodD d.openSelf := by
  constructor <;> simp [Dropdown.openSelf]

theorem GoodD_destroy (d : Dropdown) : GoodD d.destroy := by
  constructor <;> simp [Dropdown.destroy]

theorem updateFocusedOption_fields (d : Dropdown) :
    d.updateFocusedOption.isOpen = d.isOpen ∧
    d.updateFocusedOption.classOpen = d.classOpen ∧
    d.updateFocusedOption.keydownListener = d.keydownListener ∧
    d.updateFocusedOption.focusedIndex = d.focusedIndex ∧
    d.updateFocusedOption.selectedIndex = d.selectedIndex ∧
    d.updateFocusedOption.options = d.options := by
  unfold Dropdown.updateFocusedOption
  split <;> simp

theorem select_state_isOpen {d : Dropdown} {j : Nat}
    (h : (d.selectOption j).state.isOpen = true) : d.isOpen = true := by
  unfold Dropdown.selectOption at h
  rcases hg : d.options.get? j with _ | opt <;> rw [hg] at h <;>
    cases hsel : d.selectedIndex <;> rw [hsel] at h <;>
      simp_all [close_isOpen]

theorem GoodD_select {d : Dropdown} (j : Nat) (h : GoodD d) :
    GoodD (d.selectOption j).state := by
  rcases h with ⟨h1, h2⟩
  unfold Dropdown.selectOption
  cases hsel : d.selectedIndex <;> cases hg : d.options.get? j <;>
    simp only [hsel, hg] <;>
      first
      | exact ⟨h1, h2⟩
      | exact GoodD_close ⟨h1, h2⟩

/-! ### Pointwise descriptions of the page-level list transformations -/

theorem setInst_get? (f : Dropdown → Dropdown) :
    ∀ (i : Nat) (p : Page) (k : Nat),
      (setInst f i p).get? k = if k = i then (p.get? k).map f else p.get? k := by
  intro i p
  induction p generalizing i with
  | nil => intro k; simp [setInst]
  | cons d rest ih =>
    intro k
    cases i with
    | zero =>
      cases k with
      | zero => simp [setInst]
      | succ k => simp [setInst]
    | succ i =>
      cases k with
      | zero => simp [setInst]
      | succ k => simpa [setInst] using ih i k

theorem closeOthersFrom_get? (self : Nat) :
    ∀ (p : Page) (j k : Nat),
      (closeOthersFrom self j p).get? k =
        (p.get? k).map fun d => if d.classOpen = true ∧ j + k ≠ self then d.close else d := by
  intro p
  induction p with
  | nil => intro j k; simp [closeOthersFrom]
  | cons d rest ih =>
    intro j k
    cases k with
    | zero => simp [closeOthersFrom]
    | succ k =>
      simp only [closeOthersFrom, List.get?_cons_succ]
      rw [ih (j + 1) k]
      have hjk : j + 1 + k = j + (k + 1) := by omega
      rw [hjk]

theorem documentClickFrom_get? (t : ClickTarget) :
    ∀ (p : Page) (j k : Nat),
      (documentClickFrom t j p).get? k =
        (p.get? k).map fun d =>
          if d.docClickListener = true ∧ d.isOpen = true ∧ containsTarget (j + k) t = false
          then d.close else d := by
  intro p
  induction p with
  | nil => intro j k; simp [documentClickFrom]
  | cons d rest ih =>
    intro j k
    cases k with
    | zero => simp [documentClickFrom]
    | succ k =>
      simp only [documentClickFrom, List.get?_cons_succ]
      rw [ih (j + 1) k]
      have hjk : j + 1 + k = j + (k + 1) := by omega
      rw [hjk]

/-! ### Membership-preservation lemmas -/

theorem setInst_forall {P : Dropdown → Prop} (f : Dropdown → Dropdown) :
    ∀ (i : Nat) (p : Page), (∀ d ∈ p, P d) → (∀ d, getInst p i = some d → P (f d)) →
      ∀ d' ∈ setInst f i p, P d' := by
  intro i p
  induction p generalizing i with
  | nil => intro _ _ d' hd'; simp [setInst] at hd'
  | cons d rest ih =>
    intro h1 h2 d' hd'
    cases i with
    | zero =>
      simp only [setInst, List.mem_cons] at hd'
      rcases hd' with h | h
      · exact h ▸ h2 d rfl
      · exact h1 d' (List.mem_cons_of_mem _ h)
    | succ i =>
      simp only [setInst, List.mem_cons] at hd'
      rcases hd' with h | h
      · exact h ▸ h1 d (List.mem_cons_self _ _)
      · exact ih i (fun x hx => h1 x (List.mem_cons_of_mem _ hx)) (fun x hx => h2 x hx) d' h

theorem closeOthersFrom_forall {P : Dropdown → Prop} (hP : ∀ d, P d → P d.close)
    (self : Nat) :
    ∀ (p : Page) (j : Nat), (∀ d ∈ p, P d) → ∀ d' ∈ closeOthersFrom self j p, P d' := by
  intro p
  induction p with
  | nil => intro _ _ d' hd'; simp [closeOthersFrom] at hd'
  | cons d rest ih =>
    intro j h1 d' hd'
    simp only [closeOthersFrom, List.mem_cons] at hd'
    rcases hd' with h | h
    · subst h
      split
      · exact hP d (h1 d (List.mem_cons_self _ _))
      · exact h1 d (List.mem_cons_self _ _)
    · exact ih (j + 1) (fun x hx => h1 x (List.mem_cons_of_mem _ hx)) d' h

theorem documentClickFrom_forall {P : Dropdown → Prop} (hP : ∀ d, P d → P d.close)
    (t : ClickTarget) :
    ∀ (p : Page) (j : Nat), (∀ d ∈ p, P d) → ∀ d' ∈ documentClickFrom t j p, P d' := by
  intro p
  induction p with
  | nil => intro _ _ d' hd'; simp [documentClickFrom] at hd'
  | cons d rest ih =>
    intro j h1 d' hd'
    simp only [documentClickFrom, List.mem_cons] at hd'
    rcases hd' with h | h
    · subst h
      split
      · exact hP d (h1 d (List.mem_cons_self _ _))
      · exact h1 d (List.mem_cons_self _ _)
    · exact ih (j + 1) (fun x hx => h1 x (List.mem_cons_of_mem _ hx)) d' h

/-! ### Counting open instances -/

theorem countOpen_cons (d : Dropdown) (p : Page) :
    countOpen (d :: p) = countOpen p + (if d.isOpen = true then 1 else 0) := by
  simp [countOpen, List.countP_cons]

theorem countOpen_setInst_le (f : Dropdown → Dropdown) :
    ∀ (i : Nat) (p : Page),
      (∀ d, getInst p i = some d → (f d).isOpen = true → d.isOpen = true) →
      countOpen (setInst f i p) ≤ countOpen p := by
  intro i p
  induction p generalizing i with
  | nil => intro _; simp [setInst]
  | cons d rest ih =>
    intro h
    cases i with
    | zero =>
      have hd := h d rfl
      simp only [setInst, countOpen_cons]
      have hle : (if (f d).isOpen = true then 1 else 0) ≤ if d.isOpen = true then 1 else 0 := by
        by_cases hf : (f d).isOpen = true
        · simp [hf, hd hf]
        · simp [hf]
      omega
    | succ i =>
      simp only [setInst, countOpen_cons]
      have := ih i (fun x hx => h x hx)
      omega

theorem countOpen_setInst_le_succ (f : Dropdown → Dropdown) :
    ∀ (i : Nat) (p : Page), countOpen (setInst f i p) ≤ countOpen p + 1 := by
  intro i p
  induction p generalizing i with
  | nil => simp [setInst]
  | cons d rest ih =>
    cases i with
    | zero =>
      simp only [setInst, countOpen_cons]
      have h1 : (if (f d).isOpen = true then 1 else 0) ≤ 1 := by split <;> omega
      omega
    | succ i =>
      simp only [setInst, countOpen_cons]
      have := ih i
      omega

theorem countOpen_documentClickFrom_le (t : ClickTarget) :
    ∀ (p : Page) (j : Nat), countOpen (documentClickFrom t j p) ≤ countOpen p := by
  intro p
  induction p with
  | nil => intro j; simp [documentClickFrom]
  | cons d rest ih =>
    intro j
    simp only [documentClickFrom, countOpen_cons]
    have htail := ih (j + 1)
    split
    · simp only [close_isOpen]
      have h0 : (if (false : Bool) = true then 1 else 0) = 0 := rfl
      rw [h0]
      have h1 : (0 : Nat) ≤ if d.isOpen = true then 1 else 0 := by split <;> omega
      omega
    · omega

theorem countOpen_closeOthersFrom_zero (self : Nat) :
    ∀ (p : Page) (j : Nat),
      (∀ d ∈ p, d.classOpen = d.isOpen) →
      (∀ k d, j + k = self → p.get? k = some d → d.isOpen = false) →
      countOpen (closeOthersFrom self j p) = 0 := by
  intro p
  induction p with
  | nil => intro j _ _; rfl
  | cons d rest ih =>
    intro j hsync hclosed
    simp only [closeOthersFrom, countOpen_cons]
    have htail := ih (j + 1) (fun x hx => hsync x (List.mem_cons_of_mem _ hx))
      (fun k x hk hx => hclosed (k + 1) x (by omega) hx)
    by_cases hc : d.classOpen = true ∧ j ≠ self
    · simp [hc, close_isOpen, htail]
    · have hopen : d.isOpen = false := by
        by_cases hco : d.classOpen = true
        · have hj : j = self := by
            by_contra hj
            exact hc ⟨hco, hj⟩
          exact hclosed 0 d (by omega) rfl
        · have hs := hsync d (List.mem_cons_self _ _)
          rw [← hs]
          simpa using hco
      simp [hc, hopen, htail]

/-! ### Preservation of the page invariant by every dispatch -/

theorem getInst_mem {p : Page} {i : Nat} {d : Dropdown} (h : getInst p i = some d) : d ∈ p :=
  List.get?_mem h

theorem openInst_Wf {p : Page} (i : Nat) (h : Wf p) : Wf (openInst p i) := by
  rcases h with ⟨hg, hc⟩
  unfold openInst
  cases hi : getInst p i with
  | none => exact ⟨hg, hc⟩
  | some d =>
    by_cases ho : d.isOpen = true
    · simp only [ho, if_true]; exact ⟨hg, hc⟩
    · have ho' : d.isOpen = false := by simpa using ho
      simp only [ho', Bool.false_eq_true, if_false]
      constructor
      · exact setInst_forall _ i _
          (closeOthersFrom_forall (fun x hx => GoodD_close hx) i p 0 hg)
          (fun x _ => GoodD_openSelf x)
      · have hzero : countOpen (closeOthers p i) = 0 := by
          refine countOpen_closeOthersFrom_zero i p 0 (fun x hx => (hg x hx).1) ?_
          intro k x hk hx
          have hk' : k = i := by omega
          rw [hk'] at hx
          have hxi : getInst p i = some x := hx
          rw [hi] at hxi
          have hxd : x = d := (Option.some.inj hxi).symm
          rw [hxd]
          exact ho'
        have := countOpen_setInst_le_succ Dropdown.openSelf i (closeOthers p i)
        rw [hzero] at this
        omega

theorem closeInst_Wf {p : Page} (i : Nat) (h : Wf p) : Wf (closeInst p i) := by
  rcases h with ⟨hg, hc⟩
  refine ⟨setInst_forall _ i p hg (fun d hd => GoodD_close (hg d (getInst_mem hd))), ?_⟩
  refine le_trans (countOpen_setInst_le _ i p (fun d _ hopen => ?_)) hc
  rw [close_isOpen] at hopen
  cases hopen

theorem documentClick_Wf {p : Page} (t : ClickTarget) (h : Wf p) : Wf (documentClick p t) := by
  rcases h with ⟨hg, hc⟩
  exact ⟨documentClickFrom_forall (fun x hx => GoodD_close hx) t p 0 hg,
    le_trans (countOpen_documentClickFrom_le t p 0) hc⟩

theorem destroy_Wf {p : Page} (i : Nat) (h : Wf p) : Wf (setInst Dropdown.destroy i p) := by
  rcases h with ⟨hg, hc⟩
  refine ⟨setInst_forall _ i p hg (fun d _ => GoodD_destroy d), ?_⟩
  refine le_trans (countOpen_setInst_le _ i p (fun d _ hopen => ?_)) hc
  simp [Dropdown.destroy] at hopen

theorem selectSet_Wf {p : Page} {d : Dropdown} (i j : Nat) (hi : getInst p i = some d)
    (h : Wf p) : Wf (setInst (fun _ => (d.selectOption j).state) i p) := by
  rcases h with ⟨hg, hc⟩
  refine ⟨setInst_forall _ i p hg (fun x _ => GoodD_select j (hg d (getInst_mem hi))), ?_⟩
  refine le_trans (countOpen_setInst_le _ i p (fun x hx hopen => ?_)) hc
  have hxd : x = d := by rw [hi] at hx; exact (Option.some.inj hx).symm
  rw [hxd]
  exact select_state_isOpen hopen

theorem toggleInst_Wf {p : Page} (i : Nat) (h : Wf p) : Wf (toggleInst p i) := by
  unfold toggleInst
  cases hi : getInst p i with
  | none => exact h
  | some d =>
    by_cases ho : d.isOpen = true
    · simp only [ho, if_true]; exact closeInst_Wf i h
    · have ho' : d.isOpen = false := by simpa using ho
      simp only [ho', Bool.false_eq_true, if_false]
      exact openInst_Wf i h

theorem nav_fields (d : Dropdown) (k : NavKey) :
    (applyNav d k).isOpen = d.isOpen ∧ (applyNav d k).classOpen = d.classOpen ∧
    (applyNav d k).keydownListener = d.keydownListener ∧
    (applyNav d k).selectedIndex = d.selectedIndex ∧ (applyNav d k).options = d.options := by
  cases k <;>
    exact ⟨(updateFocusedOption_fields _).1, (updateFocusedOption_fields _).2.1,
      (updateFocusedOption_fields _).2.2.1, (updateFocusedOption_fields _).2.2.2.2.1,
      (updateFocusedOption_fields _).2.2.2.2.2⟩

theorem navSet_Wf {p : Page} (i : Nat) (f : Dropdown → Dropdown)
    (hfields : ∀ x, (f x).isOpen = x.isOpen ∧ (f x).classOpen = x.classOpen ∧
      (f x).keydownListener = x.keydownListener)
    (hopen : ∀ x, getInst p i = some x → x.isOpen = true)
    (h : Wf p) : Wf (setInst f i p) := by
  rcases h with ⟨hg, hc⟩
  refine ⟨setInst_forall _ i p hg (fun x hx => ?_), ?_⟩
  · have hgx := hg x (getInst_mem hx)
    have hox := hopen x hx
    rcases hfields x with ⟨f1, f2, f3⟩
    refine ⟨by rw [f1, f2]; exact hgx.1, ?_⟩
    intro _ hfo
    rw [f1, hox] at hfo
    cases hfo
  · exact le_trans (countOpen_setInst_le _ i p
      (fun x _ ho2 => by rw [(hfields x).1] at ho2; exact ho2)) hc

theorem keydown_Wf {p : Page} (i : Nat) (k : Key) (h : Wf p) : Wf (keydown p i k).page := by
  have hnav : ∀ (nk : NavKey) (x : Dropdown),
      (applyNav x nk).isOpen = x.isOpen ∧ (applyNav x nk).classOpen = x.classOpen ∧
      (applyNav x nk).keydownListener = x.keydownListener :=
    fun nk x => ⟨(nav_fields x nk).1, (nav_fields x nk).2.1, (nav_fields x nk).2.2.1⟩
  unfold keydown
  split
  next => exact h
  next d hi =>
    have hopen_of : (¬ d.isOpen = false) → ∀ x, getInst p i = some x → x.isOpen = true := by
      intro hio x hx
      have hxd : x = d := by rw [hi] at hx; exact (Option.some.inj hx).symm
      rw [hxd]; simpa using hio
    have hopen_of2 : d.isOpen = true → ∀ x, getInst p i = some x → x.isOpen = true := by
      intro hio x hx
      have hxd : x = d := by rw [hi] at hx; exact (Option.some.inj hx).symm
      rw [hxd]; exact hio
    split
    next hl => exact h
    next hl =>
      split
      next hg2 => exact h
      next hg2 =>
        split
        · -- Enter
          split
          · exact openInst_Wf i h
          · split
            · exact selectSet_Wf i _ hi h
            · exact h
        · -- Space
          split
          · exact openInst_Wf i h
          · split
            · exact selectSet_Wf i _ hi h
            · exact h
        · -- Escape
          exact closeInst_Wf i h
        · -- ArrowDown
          split
          · exact openInst_Wf i h
          · next hio => exact navSet_Wf i _ (hnav .down) (hopen_of hio) h
        · -- ArrowUp
          split
          · exact openInst_Wf i h
          · next hio => exact navSet_Wf i _ (hnav .up) (hopen_of hio) h
        · -- Home
          split
          · next hio => exact navSet_Wf i _ (hnav .first) (hopen_of2 hio) h
          · exact h
        · -- End
          split
          · next hio => exact navSet_Wf i _ (hnav .last) (hopen_of2 hio) h
          · exact h
        · -- any other key
          exact h

theorem click_Wf {p : Page} (t : ClickTarget) (h : Wf p) : Wf (click p t).page := by
  cases t with
  | trigger i =>
    simp only [click]
    split
    next => exact h
    next d hi =>
      split
      · exact toggleInst_Wf i h
      · exact documentClick_Wf _ h
  | optionEl i j =>
    simp only [click]
    split
    next => exact h
    next d hi =>
      split
      · split
        · exact selectSet_Wf i j hi h
        · exact documentClick_Wf _ h
      · exact h
  | inside i => exact documentClick_Wf _ h
  | outside => exact documentClick_Wf _ h

theorem step_Wf {p : Page} (a : Action) (h : Wf p) : Wf (step p a).page := by
  cases a with
  | click t => exact click_Wf t h
  | keydown i k => exact keydown_Wf i k h
  | openOp i => exact openInst_Wf i h
  | closeOp i => exact closeInst_Wf i h
  | selectOp i j =>
    simp only [step]
    split
    next => exact h
    next d hi => exact selectSet_Wf i j hi h
  | destroyOp i => exact destroy_Wf i h

theorem run_Wf : ∀ (acts : List Action) (p : Page), Wf p → Wf (run p acts) := by
  intro acts
  induction acts with
  | nil => intro p h; exact h
  | cons a rest ih => intro p h; exact ih _ (step_Wf a h)

theorem initPage_Wf (specs : List DropdownSpec) : Wf (initPage specs) := by
  constructor
  · intro d hd
    simp only [initPage, List.mem_map] at hd
    rcases hd with ⟨s, _, rfl⟩
    exact ⟨rfl, fun _ _ => rfl⟩
  · have h0 : ∀ l : List DropdownSpec, countOpen (initPage l) = 0 := by
      intro l
      induction l with
      | nil => rfl
      | cons s rest ih =>
          simp only [initPage, List.map_cons, countOpen, List.countP_cons, mkDropdown] at ih ⊢
          simp [ih]
    rw [h0]
    omega

/-- Every page reachable from registry initialisation by dispatching events
and public method calls satisfies the structural invariant. -/
theorem reachable_Wf (specs : List DropdownSpec) (acts : List Action) :
    Wf (run (initPage specs) acts) :=
  run_Wf acts (initPage specs) (initPage_Wf specs)

/-! ### Field-level facts used by the claim theorems -/

theorem close_id (d : Dropdown) : d.close.id = d.id := by
  unfold Dropdown.close; split <;> rfl

theorem close_focusedIndex (d : Dropdown) :
    d.close.focusedIndex = if d.isOpen = true then -1 else d.focusedIndex := by
  unfold Dropdown.close
  rcases h : d.isOpen <;> simp [h]

theorem close_valueDisplay (d : Dropdown) : d.close.valueDisplay = d.valueDisplay := by
  unfold Dropdown.close; split <;> rfl

theorem close_isPlaceholderClass (d : Dropdown) :
    d.close.isPlaceholderClass = d.isPlaceholderClass := by
  unfold Dropdown.close; split <;> rfl

/-- Shared description of the valid-index path of `selectOption`:
the method records the selection, shows the chosen label, closes, does not
throw, and dispatches exactly one event carrying the chosen value, the
option element and the owning instance. -/
theorem selectOption_valid_spec (d : Dropdown) (i : Nat) (h : i < d.options.length) :
    (d.selectOption i).state.isOpen = false ∧
    (d.selectOption i).state.selectedIndex = some i ∧
    (d.selectOption i).state.selectedValue = some (d.options.get ⟨i, h⟩).value ∧
    (d.selectOption i).state.valueDisplay = (d.options.get ⟨i, h⟩).label ∧
    (d.selectOption i).state.isPlaceholderClass = false ∧
    (d.selectOption i).crashed = false ∧
    (d.selectOption i).events =
      [{ value := some (d.options.get ⟨i, h⟩).value, optionIndex := i, source := d.id }] := by
  have hg : d.options.get? i = some (d.options.get ⟨i, h⟩) := List.get?_eq_get h
  unfold Dropdown.selectOption
  cases hsel : d.selectedIndex <;>
    (simp only [hsel]
     rw [hg]
     simp [close_isOpen, close_selectedIndex, close_selectedValue,
       close_valueDisplay, close_isPlaceholderClass, close_id])

/-- The focused index left by a valid `selectOption`: `close()` resets it
when the instance was open, otherwise it is untouched. -/
theorem selectOption_valid_focusedIndex (d : Dropdown) (i : Nat) (h : i < d.options.length) :
    (d.selectOption i).state.focusedIndex =
      if d.isOpen = true then -1 else d.focusedIndex := by
  have hg : d.options.get? i = some (d.options.get ⟨i, h⟩) := List.get?_eq_get h
  unfold Dropdown.selectOption
  cases hsel : d.selectedIndex <;>
    (simp only [hsel]
     rw [hg]
     simp [close_focusedIndex])

/-! ### Frame properties of `selectedIndex` -/

/-- The selected option of instance `i`, viewed at page level. -/
def selIdxAt (p : Page) (i : Nat) : Option (Option Nat) :=
  (getInst p i).map Dropdown.selectedIndex

theorem selIdxAt_setInst_pres (f : Dropdown → Dropdown)
    (hf : ∀ x, (f x).selectedIndex = x.selectedIndex) (j i : Nat) (p : Page) :
    selIdxAt (setInst f j p) i = selIdxAt p i := by
  unfold selIdxAt getInst
  rw [setInst_get?]
  split
  · cases p.get? i <;> simp [hf]
  · rfl

theorem selIdxAt_setInst_ne (f : Dropdown → Dropdown) (j i : Nat) (hne : i ≠ j) (p : Page) :
    selIdxAt (setInst f j p) i = selIdxAt p i := by
  unfold selIdxAt getInst
  rw [setInst_get?, if_neg hne]

theorem selIdxAt_closeOthers (p : Page) (self i : Nat) :
    selIdxAt (closeOthers p self) i = selIdxAt p i := by
  unfold selIdxAt getInst closeOthers
  rw [closeOthersFrom_get?]
  cases p.get? i <;> simp only [Option.map_none', Option.map_some', Option.map_map]
  split <;> simp [close_selectedIndex]

theorem selIdxAt_documentClick (p : Page) (t : ClickTarget) (i : Nat) :
    selIdxAt (documentClick p t) i = selIdxAt p i := by
  unfold selIdxAt getInst documentClick
  rw [documentClickFrom_get?]
  cases p.get? i <;> simp only [Option.map_none', Option.map_some', Option.map_map]
  split <;> simp [close_selectedIndex]

theorem selIdxAt_closeInst (p : Page) (j i : Nat) :
    selIdxAt (closeInst p j) i = selIdxAt p i :=
  selIdxAt_setInst_pres Dropdown.close close_selectedIndex j i p

theorem selIdxAt_openInst (p : Page) (j i : Nat) :
    selIdxAt (openInst p j) i = selIdxAt p i := by
  unfold openInst
  split
  · rfl
  · split
    · rfl
    · rw [selIdxAt_setInst_pres Dropdown.openSelf (fun _ => rfl), selIdxAt_closeOthers]

theorem selIdxAt_toggleInst (p : Page) (j i : Nat) :
    selIdxAt (toggleInst p j) i = selIdxAt p i := by
  unfold toggleInst
  split
  · rfl
  · split
    · exact selIdxAt_closeInst p j i
    · exact selIdxAt_openInst p j i

/-- Every dispatched operation that does not reach `selectOption` on
instance `i` leaves that instance's selected option unchanged. -/
theorem step_selIdx_frame (p : Page) (a : Action) (i : Nat) (h : SelectsOn a i = false) :
    selIdxAt (step p a).page i = selIdxAt p i := by
  cases a with
  | click t =>
    cases t with
    | trigger j =>
      simp only [step, click]
      split
      · rfl
      · split
        · exact selIdxAt_toggleInst p j i
        · exact selIdxAt_documentClick p _ i
    | optionEl j m =>
      have hne : i ≠ j := by
        intro he
        rw [he] at h
        simp [SelectsOn] at h
      simp only [step, click]
      split
      · rfl
      · split
        · split
          · exact selIdxAt_setInst_ne _ j i hne p
          · exact selIdxAt_documentClick p _ i
        · rfl
    | inside j => exact selIdxAt_documentClick p _ i
    | outside => exact selIdxAt_documentClick p _ i
  | keydown j k =>
    simp only [step, keydown]
    split
    · rfl
    next d hd =>
      split
      · rfl
      · split
        · rfl
        · split
          · -- Enter
            split
            · exact selIdxAt_openInst p j i
            · split
              · have hne : i ≠ j := by
                  intro he
                  rw [he] at h
                  simp [SelectsOn] at h
                exact selIdxAt_setInst_ne _ j i hne p
              · rfl
          · -- Space
            split
            · exact selIdxAt_openInst p j i
            · split
              · have hne : i ≠ j := by
                  intro he
                  rw [he] at h
                  simp [SelectsOn] at h
                exact selIdxAt_setInst_ne _ j i hne p
              · rfl
          · exact selIdxAt_closeInst p j i
          · -- ArrowDown
            split
            · exact selIdxAt_openInst p j i
            · exact selIdxAt_setInst_pres _ (fun x => (nav_fields x .down).2.2.2.1) j i p
          · -- ArrowUp
            split
            · exact selIdxAt_openInst p j i
            · exact selIdxAt_setInst_pres _ (fun x => (nav_fields x .up).2.2.2.1) j i p
          · -- Home
            split
            · exact selIdxAt_setInst_pres _ (fun x => (nav_fields x .first).2.2.2.1) j i p
            · rfl
          · -- End
            split
            · exact selIdxAt_setInst_pres _ (fun x => (nav_fields x .last).2.2.2.1) j i p
            · rfl
          · rfl
  | openOp j => exact selIdxAt_openInst p j i
  | closeOp j => exact selIdxAt_closeInst p j i
  | selectOp j m =>
    have hne : i ≠ j := by
      intro he
      rw [he] at h
      simp [SelectsOn] at h
    simp only [step]
    split
    · rfl
    · exact selIdxAt_setInst_ne _ j i hne p
  | destroyOp j => exact selIdxAt_setInst_pres Dropdown.destroy (fun _ => rfl) j i p

/-! ### Preservation of the accessibility-attribute contract -/

theorem AriaSync_close {x : Dropdown} (h : AriaSync x) : AriaSync x.close := by
  rcases h with ⟨h1, h2, h3⟩
  unfold Dropdown.close
  split
  · exact ⟨rfl, h2, h3⟩
  · exact ⟨h1, h2, h3⟩

theorem AriaSync_openSelf {x : Dropdown} (h : AriaSync x) : AriaSync x.openSelf :=
  ⟨rfl, h.2.1, h.2.2⟩

theorem AriaSelSync_destroy {x : Dropdown} (h : AriaSync x) : AriaSelSync x.destroy :=
  ⟨h.2.1, h.2.2⟩

theorem AriaSync_select {d : Dropdown} (j : Nat) (h : AriaSync d) :
    AriaSync (d.selectOption j).state := by
  rcases h with ⟨hexp, hlen, hsel⟩
  unfold Dropdown.selectOption
  cases hselidx : d.selectedIndex with
  | none =>
    cases hg : d.options.get? j with
    | none =>
      simp only [hselidx, hg]
      refine ⟨hexp, hlen, ?_⟩
      intro k hk
      have hk' := hsel k hk
      rw [hselidx] at hk'
      simpa using hk'
    | some opt =>
      simp only [hselidx, hg]
      apply AriaSync_close
      have hj : j < d.options.length := by
        rcases List.get?_eq_some.mp hg with ⟨h1, _⟩
        exact h1
      refine ⟨hexp, by simp [hlen], ?_⟩
      intro k hk
      by_cases hkj : k = j
      · subst hkj
        have hklt : k < d.ariaSelected.length := by rw [hlen]; exact hk
        rw [List.get?_set_eq_of_lt _ hklt]
        simp
      · have hjk : j ≠ k := fun he => hkj he.symm
        rw [List.get?_set_ne _ _ hjk]
        have hk' := hsel k hk
        rw [hselidx] at hk'
        rw [hk']
        simp [hjk]
  | some prev =>
    cases hg : d.options.get? j with
    | none =>
      simp only [hselidx, hg]
      refine ⟨hexp, by simp [hlen], ?_⟩
      intro k hk
      by_cases hkp : k = prev
      · subst hkp
        have hklt : k < d.ariaSelected.length := by rw [hlen]; exact hk
        rw [List.get?_set_eq_of_lt _ hklt]
        simp
      · have hpk : prev ≠ k := fun he => hkp he.symm
        rw [List.get?_set_ne _ _ hpk]
        have hk' := hsel k hk
        rw [hselidx] at hk'
        rw [hk']
        simp [hpk]
    | some opt =>
      simp only [hselidx, hg]
      apply AriaSync_close
      have hj : j < d.options.length := by
        rcases List.get?_eq_some.mp hg with ⟨h1, _⟩
        exact h1
      refine ⟨hexp, by simp [hlen], ?_⟩
      intro k hk
      by_cases hkj : k = j
      · subst hkj
        have hklt : k < (d.ariaSelected.set prev false).length := by
          simp only [List.length_set]
          rw [hlen]; exact hk
        rw [List.get?_set_eq_of_lt _ hklt]
        simp
      · have hjk : j ≠ k := fun he => hkj he.symm
        rw [List.get?_set_ne _ _ hjk]
        by_cases hkp : k = prev
        · subst hkp
          have hklt : k < d.ariaSelected.length := by rw [hlen]; exact hk
          rw [List.get?_set_eq_of_lt _ hklt]
          simp [hjk]
        · have hpk : prev ≠ k := fun he => hkp he.symm
          rw [List.get?_set_ne _ _ hpk]
          have hk' := hsel k hk
          rw [hselidx] at hk'
          rw [hk']
          simp [hpk, hjk]

/-! ### Concrete fixtures for witnesses and counterexamples -/

/-- A demo option element. -/
def optS : OptionEntry := ⟨"s", "Small"⟩

/-- A second demo option element. -/
def optM : OptionEntry := ⟨"m", "Medium"⟩

/-- Markup of a demo instance with two options. -/
def demoSpec : DropdownSpec := ⟨"size", [optS, optM], "Pick a size"⟩

/-- Markup of a second demo instance. -/
def demoSpec2 : DropdownSpec := ⟨"color", [⟨"r", "Red"⟩], "Pick a color"⟩

/-- A demo page of two instances. -/
def demoSpecs : List DropdownSpec := [demoSpec, demoSpec2]

/-- The freshly initialised first demo instance. -/
def demoDropdown : Dropdown := mkDropdown "size" [optS, optM] "Pick a size"

/-- The first demo instance after a user selected option 0. -/
def demoSelected : Dropdown := (demoDropdown.selectOption 0).state

/-- The freshly initialised demo page. -/
def demoPage : Page := initPage demoSpecs

/-- The demo page after `destroy()` was called on instance 0. -/
def destroyedPage : Page := (step demoPage (Action.destroyOp 0)).page

/-- Markup of an instance with an empty option list (the markup contract
allows zero options). -/
def emptySpec : DropdownSpec := ⟨"empty", [], "Nothing here"⟩

/-- The empty-options instance opened and then sent an ArrowUp key. -/
def emptyOpenedArrow : Page := (keydown (openInst (initPage [emptySpec]) 0) 0 Key.arrowUp).page

/-- The demo page after opening instance 0 and then destroying it. -/
def ariaOpenDestroyed : Page := (step (openInst demoPage 0) (Action.destroyOp 0)).page

/-! ### Claim theorems -/

/-- Claim C1: across every sequence of dispatched operations from page
initialisation, at most one instance has `isOpen = true`; and because the
close-all-others broadcast inside `open()` runs synchronously before the
opening instance's own open-state side effects, the page observed right
after the broadcast (while the opening instance is still closed) has no
open instance at all, so two instances are never simultaneously open. -/
theorem C1_mutual_exclusion (specs : List DropdownSpec) (acts : List Action) :
    countOpen (run (initPage specs) acts) ≤ 1 ∧
    (∀ i d, getInst (run (initPage specs) acts) i = some d → d.isOpen = false →
      countOpen (closeOthers (run (initPage specs) acts) i) = 0) := by
  have hwf := reachable_Wf specs acts
  refine ⟨hwf.2, ?_⟩
  intro i d hi hclosed
  refine countOpen_closeOthersFrom_zero i _ 0 (fun x hx => (hwf.1 x hx).1) ?_
  intro k x hk hx
  have hk' : k = i := by omega
  rw [hk'] at hx
  have hxi : getInst (run (initPage specs) acts) i = some x := hx
  rw [hi] at hxi
  have hxd : x = d := (Option.some.inj hxi).symm
  rw [hxd]
  exact hclosed

/-- Witness for C1 at a concrete page: after opening instance 0, at most
one instance is open and the broadcast for (closed) instance 1 leaves no
instance open. -/
theorem C1_mutual_exclusion_witness :
    countOpen (run (initPage demoSpecs) [Action.openOp 0]) ≤ 1 ∧
    countOpen (closeOthers (run (initPage demoSpecs) [Action.openOp 0]) 1) = 0 := by
  have h := C1_mutual_exclusion demoSpecs [Action.openOp 0]
  exact ⟨h.1, h.2 1 (mkDropdown "color" [⟨"r", "Red"⟩] "Pick a color") (by decide) (by decide)⟩

/-- Claim C2 counterexample: calling `selectOption` with the out-of-range
index 5 on an instance that has a selection throws a `TypeError` and does
change the state (the previous selection marking is cleared), refuting
"state unchanged, no fatal error". -/
theorem C2_counterexample :
    (demoSelected.selectOption 5).crashed = true ∧
    (demoSelected.selectOption 5).state ≠ demoSelected := by decide

/-- Claim C2 as amended: an out-of-range `selectOption` emits no
notification, but it throws a `TypeError` instead of failing soft;
`isOpen`, `focusedIndex`, `selectedValue` and the trigger label are
unaffected, while `selectedOption` is reset to none and a previous
selection's `aria-selected` marking is cleared before the throw. -/
theorem C2_select_out_of_range (d : Dropdown) (i : Nat) (h : d.options.length ≤ i) :
    (d.selectOption i).events = [] ∧
    (d.selectOption i).crashed = true ∧
    (d.selectOption i).state.isOpen = d.isOpen ∧
    (d.selectOption i).state.focusedIndex = d.focusedIndex ∧
    (d.selectOption i).state.selectedValue = d.selectedValue ∧
    (d.selectOption i).state.valueDisplay = d.valueDisplay ∧
    (d.selectOption i).state.selectedIndex = none ∧
    (d.selectOption i).state.ariaSelected =
      (match d.selectedIndex with
       | some prev => d.ariaSelected.set prev false
       | none => d.ariaSelected) := by
  have hg : d.options.get? i = none := List.get?_eq_none.mpr h
  unfold Dropdown.selectOption
  cases hsel : d.selectedIndex <;>
    (simp only [hsel]
     rw [hg]
     simp)

/-- Witness for the amended C2 at a concrete input. -/
theorem C2_select_out_of_range_witness :
    (demoSelected.selectOption 5).events = [] ∧
    (demoSelected.selectOption 5).crashed = true := by
  have h := C2_select_out_of_range demoSelected 5 (by decide)
  exact ⟨h.1, h.2.1⟩

/-- Claim C3 counterexample: after `destroy()`, a click on one of the
instance's option elements still selects that option and still emits a
selection notification, because `destroy()` does not remove the per-option
click listeners. -/
theorem C3_counterexample :
    selIdxAt (click destroyedPage (ClickTarget.optionEl 0 0)).page 0 = some (some 0) ∧
    (click destroyedPage (ClickTarget.optionEl 0 0)).events ≠ [] := by decide

/-- Claim C3 as amended: after `destroy()` the instance ignores every key
event, a click on its trigger changes nothing about it and emits nothing,
clicks elsewhere never change it, and the mutual-exclusion broadcast (and
`open()` of any other instance) leaves it untouched; however a click on
one of its option elements still runs the selection handler, changing its
selection state and emitting a notification. -/
theorem C3_destroyed_partially_inert (p : Page) (i : Nat) (d : Dropdown)
    (h : getInst p i = some d) (hd : Destroyed d) :
    (∀ k : Key, keydown p i k = ⟨p, [], false⟩) ∧
    (getInst (click p (ClickTarget.trigger i)).page i = some d ∧
      (click p (ClickTarget.trigger i)).events = []) ∧
    (∀ j, getInst (click p (ClickTarget.inside j)).page i = some d) ∧
    (getInst (click p ClickTarget.outside).page i = some d) ∧
    (∀ k, getInst (closeOthers p k) i = some d) ∧
    (∀ k, k ≠ i → getInst (openInst p k) i = some d) ∧
    (∀ j, j < d.options.length →
      selIdxAt (click p (ClickTarget.optionEl i j)).page i = some (some j) ∧
      (click p (ClickTarget.optionEl i j)).events ≠ []) := by
  obtain ⟨hTrig, hKey, hDoc, hOpt, hOpen, hClass⟩ := hd
  have hkeydown : ∀ k : Key, keydown p i k = ⟨p, [], false⟩ := by
    intro k
    unfold keydown
    simp only [h]
    rw [if_pos hKey]
  have hdocTarget : ∀ t : ClickTarget, getInst (documentClick p t) i = some d := by
    intro t
    show (documentClickFrom t 0 p).get? i = some d
    rw [documentClickFrom_get?]
    rw [show p.get? i = some d from h]
    simp [hDoc]
  have hclose : ∀ k, getInst (closeOthers p k) i = some d := by
    intro k
    show (closeOthersFrom k 0 p).get? i = some d
    rw [closeOthersFrom_get?]
    rw [show p.get? i = some d from h]
    simp [hClass]
  have hopeninst : ∀ k, k ≠ i → getInst (openInst p k) i = some d := by
    intro k hk
    unfold openInst
    split
    · exact h
    next x hgk =>
      split
      · exact h
      · show (setInst Dropdown.openSelf k (closeOthers p k)).get? i = some d
        rw [setInst_get?, if_neg (fun he => hk he.symm)]
        exact hclose k
  have htrigger : getInst (click p (ClickTarget.trigger i)).page i = some d ∧
      (click p (ClickTarget.trigger i)).events = [] := by
    simp only [click, h]
    rw [if_neg (by rw [hTrig]; exact Bool.false_ne_true)]
    exact ⟨hdocTarget _, rfl⟩
  have hoptclick : ∀ j, j < d.options.length →
      selIdxAt (click p (ClickTarget.optionEl i j)).page i = some (some j) ∧
      (click p (ClickTarget.optionEl i j)).events ≠ [] := by
    intro j hj
    have hspec := selectOption_valid_spec d j hj
    simp only [click, h]
    rw [if_pos hj, if_pos hOpt]
    constructor
    · show selIdxAt (setInst (fun _ => (d.selectOption j).state) i p) i = some (some j)
      unfold selIdxAt getInst
      rw [setInst_get?, if_pos rfl]
      rw [show p.get? i = some d from h]
      simp [hspec.2.1]
    · show (d.selectOption j).events ≠ []
      rw [hspec.2.2.2.2.2.2]
      simp
  exact ⟨hkeydown, htrigger, fun j => hdocTarget _, hdocTarget _, hclose, hopeninst, hoptclick⟩

/-- Witness for the amended C3: the destroyed demo instance ignores the
Escape key entirely. -/
theorem C3_destroyed_partially_inert_witness :
    keydown destroyedPage 0 Key.escape = ⟨destroyedPage, [], false⟩ := by
  have h := C3_destroyed_partially_inert destroyedPage 0 demoDropdown.destroy
    (by decide) ⟨rfl, rfl, rfl, rfl, rfl, rfl⟩
  exact h.1 Key.escape

/-- Claim C4: for a valid index `i`, `selectOption(i)` leaves the instance
closed with `selectedIndex = i`, and dispatches exactly one
`dropdown:select` event carrying the chosen value, the chosen option
element and the owning instance. -/
theorem C4_selectOption_valid (d : Dropdown) (i : Nat) (h : i < d.options.length) :
    (d.selectOption i).state.isOpen = false ∧
    (d.selectOption i).state.selectedIndex = some i ∧
    (d.selectOption i).events =
      [{ value := some (d.options.get ⟨i, h⟩).value, optionIndex := i, source := d.id }] := by
  have hs := selectOption_valid_spec d i h
  exact ⟨hs.1, hs.2.1, hs.2.2.2.2.2.2⟩

/-- Witness for C4 at a concrete input. -/
theorem C4_selectOption_valid_witness :
    (demoDropdown.selectOption 1).state.isOpen = false ∧
    (demoDropdown.selectOption 1).state.selectedIndex = some 1 ∧
    (demoDropdown.selectOption 1).events =
      [{ value := some "m", optionIndex := 1, source := "size" }] := by
  have h := C4_selectOption_valid demoDropdown 1 (by decide)
  exact ⟨h.1, h.2.1, h.2.2⟩

/-- Claim C5 (code bug in the source): with the dropdown closed, ArrowDown
and ArrowUp keydowns are discarded by the early-return guard of
`handleKeyboard` before the `case` branches that would call `open()` (those
branches are dead code), so the instance stays closed — while a trigger
click, Enter and Space do open it as the claim states. -/
theorem C5_closed_arrow_keys_ignored :
    keydown demoPage 0 Key.arrowDown = ⟨demoPage, [], false⟩ ∧
    keydown demoPage 0 Key.arrowUp = ⟨demoPage, [], false⟩ ∧
    (getInst demoPage 0).map Dropdown.isOpen = some false ∧
    (getInst (click demoPage (ClickTarget.trigger 0)).page 0).map Dropdown.isOpen = some true ∧
    (getInst (keydown demoPage 0 Key.enter).page 0).map Dropdown.isOpen = some true ∧
    (getInst (keydown demoPage 0 Key.space).page 0).map Dropdown.isOpen = some true := by
  decide

/-! ### Focused-index arithmetic for the keyboard navigation claims -/

theorem focusNextOption_focusedIndex (d : Dropdown) :
    d.focusNextOption.focusedIndex = min (d.focusedIndex + 1) ((d.options.length : Int) - 1) := by
  unfold Dropdown.focusNextOption
  rw [(updateFocusedOption_fields _).2.2.2.1]

theorem focusPreviousOption_focusedIndex (d : Dropdown) :
    d.focusPreviousOption.focusedIndex = max (d.focusedIndex - 1) 0 := by
  unfold Dropdown.focusPreviousOption
  rw [(updateFocusedOption_fields _).2.2.2.1]

theorem focusFirstOption_focusedIndex (d : Dropdown) :
    d.focusFirstOption.focusedIndex = 0 := by
  unfold Dropdown.focusFirstOption
  rw [(updateFocusedOption_fields _).2.2.2.1]

theorem focusLastOption_focusedIndex (d : Dropdown) :
    d.focusLastOption.focusedIndex = (d.options.length : Int) - 1 := by
  unfold Dropdown.focusLastOption
  rw [(updateFocusedOption_fields _).2.2.2.1]

/-- The focused index denotes a valid option: inside `[0, length - 1]`. -/
def focusInRange (d : Dropdown) : Prop :=
  0 ≤ d.focusedIndex ∧ d.focusedIndex ≤ (d.options.length : Int) - 1

instance (d : Dropdown) : Decidable (focusInRange d) := by
  unfold focusInRange
  infer_instance

instance (d : Dropdown) : Decidable (AriaSync d) := by
  unfold AriaSync
  infer_instance

instance (d : Dropdown) : Decidable (AriaSelSync d) := by
  unfold AriaSelSync
  infer_instance

theorem applyNav_inRange (x : Dropdown) (k : NavKey) (hl : 1 ≤ x.options.length)
    (hfi : x.focusedIndex = -1 ∨ focusInRange x) : focusInRange (applyNav x k) := by
  have hopt := (nav_fields x k).2.2.2.2
  unfold focusInRange
  rw [hopt]
  rcases hfi with hfi | ⟨h1, h2⟩ <;>
    cases k <;>
      simp only [applyNav, focusNextOption_focusedIndex, focusPreviousOption_focusedIndex,
        focusFirstOption_focusedIndex, focusLastOption_focusedIndex, min_def, max_def] <;>
      (try split_ifs) <;>
      omega

/-- Claim C6 counterexample: the markup contract allows an instance with
zero options; opening it and pressing ArrowUp moves `focusedIndex` from
the "none" sentinel to `0`, which lies outside `[0, length - 1]` (an empty
range), refuting the claim for empty option lists. -/
theorem C6_counterexample :
    (getInst emptyOpenedArrow 0).map (fun x => decide (focusInRange x)) = some false ∧
    (getInst emptyOpenedArrow 0).map Dropdown.focusedIndex = some 0 ∧
    (getInst emptyOpenedArrow 0).map (fun x => x.options.length) = some 0 := by decide

/-- Claim C6 as amended: for an instance with at least one option,
ArrowDown clamps to `min(focusedIndex + 1, lastIndex)`, ArrowUp to
`max(focusedIndex - 1, 0)`, Home goes to `0`, End to `lastIndex`, and no
nonempty sequence of these four requests ever leaves `focusedIndex`
outside `[0, length - 1]` — in particular ArrowDown at the last index and
ArrowUp at index 0 stay put.  (For an empty option list, ArrowUp and Home
instead move `focusedIndex` to `0`, outside the empty valid range.) -/
theorem C6_navigation_clamped (d : Dropdown) (hlen : 1 ≤ d.options.length)
    (hfi : d.focusedIndex = -1 ∨ focusInRange d) :
    (∀ ks : List NavKey, ks ≠ [] → focusInRange (applyNavs d ks)) ∧
    d.focusNextOption.focusedIndex = min (d.focusedIndex + 1) ((d.options.length : Int) - 1) ∧
    d.focusPreviousOption.focusedIndex = max (d.focusedIndex - 1) 0 ∧
    d.focusFirstOption.focusedIndex = 0 ∧
    d.focusLastOption.focusedIndex = (d.options.length : Int) - 1 ∧
    (d.focusedIndex = (d.options.length : Int) - 1 →
      d.focusNextOption.focusedIndex = d.focusedIndex) ∧
    (d.focusedIndex = 0 → d.focusPreviousOption.focusedIndex = 0) := by
  have main : ∀ (ks : List NavKey) (x : Dropdown), 1 ≤ x.options.length →
      (x.focusedIndex = -1 ∨ focusInRange x) → ks ≠ [] → focusInRange (applyNavs x ks) := by
    intro ks
    induction ks with
    | nil => intro x _ _ hne; exact absurd rfl hne
    | cons a rest ih =>
      intro x hl hfi _
      by_cases hr : rest = []
      · subst hr
        exact applyNav_inRange x a hl hfi
      · have h1 := applyNav_inRange x a hl hfi
        have hlen2 : 1 ≤ (applyNav x a).options.length := by
          rw [(nav_fields x a).2.2.2.2]
          exact hl
        exact ih (applyNav x a) hlen2 (Or.inr h1) hr
  refine ⟨fun ks hne => main ks d hlen hfi hne, focusNextOption_focusedIndex d,
    focusPreviousOption_focusedIndex d, focusFirstOption_focusedIndex d,
    focusLastOption_focusedIndex d, ?_, ?_⟩
  · intro he
    rw [focusNextOption_focusedIndex, he]
    simp only [min_def]
    split_ifs <;> omega
  · intro he
    rw [focusPreviousOption_focusedIndex, he]
    simp only [max_def]
    split_ifs <;> omega

/-- Witness for the amended C6 at a concrete input: one ArrowUp request on
the fresh two-option instance lands inside the valid range. -/
theorem C6_navigation_clamped_witness :
    focusInRange (applyNavs demoDropdown [NavKey.up]) :=
  (C6_navigation_clamped demoDropdown (by decide) (Or.inl rfl)).1 [NavKey.up] (by decide)

/-- Claim C7: `open()` is a no-op (for the whole page) when the instance
is already open; when it is closed, `open()` leaves `focusedIndex` equal
to the selected option's index when a selection exists, else the `-1`
"none" sentinel. -/
theorem C7_open_idempotent_focus (p : Page) (i : Nat) (d : Dropdown)
    (h : getInst p i = some d) :
    (d.isOpen = true → openInst p i = p) ∧
    (d.isOpen = false →
      (getInst (openInst p i) i).map Dropdown.focusedIndex =
        some (match d.selectedIndex with
              | some k => (k : Int)
              | none => -1)) := by
  constructor
  · intro ho
    unfold openInst
    simp only [h, ho, if_true]
  · intro ho
    have h2 : (closeOthers p i).get? i = some d := by
      unfold closeOthers
      rw [closeOthersFrom_get?]
      rw [show p.get? i = some d from h]
      simp
    have h3 : getInst (openInst p i) i = some d.openSelf := by
      unfold openInst
      simp only [h, ho, Bool.false_eq_true, if_false]
      show (setInst Dropdown.openSelf i (closeOthers p i)).get? i = some d.openSelf
      rw [setInst_get?, if_pos rfl, h2]
      rfl
    rw [h3]
    rfl

/-- Witness for C7 at a concrete input: opening the fresh demo instance
(which has no selection) leaves `focusedIndex = -1`. -/
theorem C7_open_idempotent_focus_witness :
    (getInst (openInst demoPage 0) 0).map Dropdown.focusedIndex = some (-1) :=
  (C7_open_idempotent_focus demoPage 0 demoDropdown (by decide)).2 rfl

/-- Claim C8: on every reachable page, `close()` never changes an
instance's `selectedIndex` and (for a live instance) always leaves
`focusedIndex` at the `-1` "none" sentinel; and no dispatched operation
that does not reach `selectOption` on the instance ever changes its
`selectedIndex`. -/
theorem C8_close_frame (specs : List DropdownSpec) (acts : List Action) (i : Nat) :
    (∀ x, getInst (run (initPage specs) acts) i = some x →
      selIdxAt (closeInst (run (initPage specs) acts) i) i = some x.selectedIndex ∧
      (x.keydownListener = true →
        (getInst (closeInst (run (initPage specs) acts) i) i).map Dropdown.focusedIndex
          = some (-1))) ∧
    (∀ a : Action, SelectsOn a i = false →
      selIdxAt (step (run (initPage specs) acts) a).page i
        = selIdxAt (run (initPage specs) acts) i) := by
  have hwf := reachable_Wf specs acts
  constructor
  · intro x hx
    have hgi : getInst (closeInst (run (initPage specs) acts) i) i = some x.close := by
      show (setInst Dropdown.close i _).get? i = some x.close
      rw [setInst_get?, if_pos rfl]
      rw [show (run (initPage specs) acts).get? i = some x from hx]
      rfl
    constructor
    · unfold selIdxAt
      rw [hgi]
      simp [close_selectedIndex]
    · intro hkl
      rw [hgi]
      have hgood := hwf.1 x (getInst_mem hx)
      cases hb : x.isOpen with
      | false =>
        have hm1 : x.focusedIndex = -1 := hgood.2 hkl hb
        simp [close_focusedIndex, hb, hm1]
      | true =>
        simp [close_focusedIndex, hb]
  · intro a ha
    exact step_selIdx_frame _ a i ha

/-- Witness for C8 at a concrete input: closing the opened demo instance
keeps its empty selection, and destroying it leaves `selectedIndex`
unchanged. -/
theorem C8_close_frame_witness :
    selIdxAt (closeInst (run (initPage demoSpecs) [Action.openOp 0]) 0) 0 = some none ∧
    selIdxAt (step (run (initPage demoSpecs) [Action.openOp 0]) (Action.destroyOp 0)).page 0
      = selIdxAt (run (initPage demoSpecs) [Action.openOp 0]) 0 := by
  have h := C8_close_frame demoSpecs [Action.openOp 0] 0
  exact ⟨(h.1 demoDropdown.openSelf (by decide)).1, h.2 (Action.destroyOp 0) (by decide)⟩

/-- Claim C9 counterexample: `destroy()` clears `isOpen` and the `is-open`
class but never writes `aria-expanded`, so destroying an open instance
leaves `aria-expanded = "true"` while `isOpen = false` — out of sync. -/
theorem C9_counterexample :
    (getInst ariaOpenDestroyed 0).map (fun x => (x.isOpen, x.ariaExpanded))
      = some (false, true) := by decide

/-- Claim C9 as amended: on every transition of `open()`, `close()` and
`selectOption()` the trigger's `aria-expanded` attribute stays equal to
`isOpen` and each option's `aria-selected` attribute stays in sync with
`selectedIndex`; `destroy()` keeps the `aria-selected` half in sync but
does not update `aria-expanded` (stale when destroying an open
instance). -/
theorem C9_aria_attributes (p : Page) (hp : ∀ x ∈ p, AriaSync x) :
    (∀ i, ∀ x ∈ openInst p i, AriaSync x) ∧
    (∀ i, ∀ x ∈ closeInst p i, AriaSync x) ∧
    (∀ i j, ∀ x ∈ (step p (Action.selectOp i j)).page, AriaSync x) ∧
    (∀ i, ∀ x ∈ (step p (Action.destroyOp i)).page, AriaSelSync x) := by
  refine ⟨?_, ?_, ?_, ?_⟩
  · intro i
    unfold openInst
    split
    · exact hp
    · split
      · exact hp
      · exact setInst_forall _ i _
          (closeOthersFrom_forall (fun x hx => AriaSync_close hx) i p 0 hp)
          (fun x hx => AriaSync_openSelf
            (closeOthersFrom_forall (fun y hy => AriaSync_close hy) i p 0 hp x (getInst_mem hx)))
  · intro i
    exact setInst_forall _ i p hp (fun x hx => AriaSync_close (hp x (getInst_mem hx)))
  · intro i j
    simp only [step]
    split
    · exact hp
    next d hd =>
      exact setInst_forall _ i p hp (fun x _ => AriaSync_select j (hp d (getInst_mem hd)))
  · intro i
    exact setInst_forall _ i p (fun x hx => ⟨(hp x hx).2.1, (hp x hx).2.2⟩)
      (fun x hx => AriaSelSync_destroy (hp x (getInst_mem hx)))

/-- Witness for the amended C9 at a concrete input. -/
theorem C9_aria_attributes_witness : AriaSync demoDropdown := by
  have h := C9_aria_attributes demoPage (by decide)
  exact h.2.1 0 demoDropdown (by decide)

/-- Claim C10: a valid `selectOption` closes the dropdown before
dispatching the notification, so at the moment an observer receives the
event the instance already has `isOpen = false`, `focusedIndex = -1`, the
event's value equal to the now-current `selectedValue` (the chosen
option's value), and the trigger label equal to the chosen option's label
with the placeholder styling removed.  (The instance is open, or has the
"none" focused index, whenever a selection is performed on a live page.) -/
theorem C10_select_closes_before_notification (d : Dropdown) (i : Nat)
    (h : i < d.options.length) (hfi : d.isOpen = true ∨ d.focusedIndex = -1) :
    ∀ ev ∈ (d.selectOption i).events,
      (d.selectOption i).state.isOpen = false ∧
      (d.selectOption i).state.focusedIndex = -1 ∧
      ev.value = (d.selectOption i).state.selectedValue ∧
      (d.selectOption i).state.selectedValue = some (d.options.get ⟨i, h⟩).value ∧
      (d.selectOption i).state.valueDisplay = (d.options.get ⟨i, h⟩).label ∧
      (d.selectOption i).state.isPlaceholderClass = false := by
  intro ev hev
  have hs := selectOption_valid_spec d i h
  have hfi' : (d.selectOption i).state.focusedIndex = -1 := by
    rw [selectOption_valid_focusedIndex d i h]
    rcases hfi with hopen | hneg
    · simp [hopen]
    · cases hb : d.isOpen <;> simp [hneg]
  have hev' : ev = (⟨some (d.options.get ⟨i, h⟩).value, i, d.id⟩ : SelectEvent) := by
    rw [hs.2.2.2.2.2.2] at hev
    simpa using hev
  refine ⟨hs.1, hfi', ?_, hs.2.2.1, hs.2.2.2.1, hs.2.2.2.2.1⟩
  rw [hev', hs.2.2.1]

/-- Witness for C10 at a concrete input. -/
theorem C10_select_closes_before_notification_witness :
    (demoDropdown.selectOption 0).state.isOpen = false ∧
    (demoDropdown.selectOption 0).state.focusedIndex = -1 := by
  have h := C10_select_closes_before_notification demoDropdown 0 (by decide) (Or.inr rfl)
  have hev : ({ value := some "s", optionIndex := 0, source := "size" } : SelectEvent)
      ∈ (demoDropdown.selectOption 0).events := by decide
  exact ⟨(h _ hev).1, (h _ hev).2.1⟩

end CustomDropdown
